import Mathlib

/-!
Verification of the icon acquisition and caching engine
(`src/background/utils/icon_extractor/mod.rs`).

The development shallow-embeds the relevant parts of the module:
* `bgra_to_rgba` — the SIMD pixel-format conversion (the 16-byte shuffle
  mask applied to every complete 16-byte chunk, trailing bytes untouched,
  exactly as `chunks_exact_mut(16)` does);
* `crop_transparent_borders` — the transparent-border cropper on RGBA
  images;
* `extract_and_save_icon_from_file` / `extract_and_save_icon_umid` — the
  extraction orchestrators, embedded as state-passing functions over an
  explicit environment of external collaborators (filesystem queries,
  platform icon provider, shortcut resolution, UWP icon lookup), with an
  event log recording which collaborators were invoked.
-/

namespace IconExtractor

/-! ### PixelFormatConverter: `bgra_to_rgba`

The source processes `data.chunks_exact_mut(16)` and applies the shuffle
mask `[2,1,0,3, 6,5,4,7, 10,9,8,11, 14,13,12,15]` to each complete
16-byte chunk (`out[i] = in[mask[i]]`); bytes after the last complete
chunk are not visited by the loop.  Bytes are modelled as `Nat`. -/

/-- `bgra_to_rgba` from the source: shuffle every complete 16-byte chunk
with the mask `[2,1,0,3, 6,5,4,7, 10,9,8,11, 14,13,12,15]`; any trailing
bytes that do not form a complete chunk are returned untouched. -/
def bgra_to_rgba : List Nat → List Nat
  | b0 :: b1 :: b2 :: b3 :: b4 :: b5 :: b6 :: b7 ::
    b8 :: b9 :: b10 :: b11 :: b12 :: b13 :: b14 :: b15 :: rest =>
      b2 :: b1 :: b0 :: b3 :: b6 :: b5 :: b4 :: b7 ::
      b10 :: b9 :: b8 :: b11 :: b14 :: b13 :: b12 :: b15 :: bgra_to_rgba rest
  | l => l

theorem getD_cons16 (b0 b1 b2 b3 b4 b5 b6 b7 b8 b9 b10 b11 b12 b13 b14 b15 : Nat)
    (rest : List Nat) (n : Nat) :
    (b0 :: b1 :: b2 :: b3 :: b4 :: b5 :: b6 :: b7 ::
     b8 :: b9 :: b10 :: b11 :: b12 :: b13 :: b14 :: b15 :: rest).getD (n + 16) 0 =
    rest.getD n 0 := by
  have h : (b0 :: b1 :: b2 :: b3 :: b4 :: b5 :: b6 :: b7 ::
      b8 :: b9 :: b10 :: b11 :: b12 :: b13 :: b14 :: b15 :: rest) =
      [b0, b1, b2, b3, b4, b5, b6, b7, b8, b9, b10, b11, b12, b13, b14, b15] ++ rest := rfl
  rw [h, List.getD_append_right]
  · simp
  · simp

theorem short_of_no_chunk (l : List Nat)
    (h : ∀ (b0 b1 b2 b3 b4 b5 b6 b7 b8 b9 b10 b11 b12 b13 b14 b15 : Nat)
      (rest : List Nat),
      l ≠ b0 :: b1 :: b2 :: b3 :: b4 :: b5 :: b6 :: b7 ::
          b8 :: b9 :: b10 :: b11 :: b12 :: b13 :: b14 :: b15 :: rest) :
    l.length < 16 := by
  by_contra hlen
  push_neg at hlen
  rcases l with _|⟨a0,_|⟨a1,_|⟨a2,_|⟨a3,_|⟨a4,_|⟨a5,_|⟨a6,_|⟨a7,_|⟨a8,_|⟨a9,_|⟨a10,_|⟨a11,_|⟨a12,_|⟨a13,_|⟨a14,_|⟨a15,rest⟩⟩⟩⟩⟩⟩⟩⟩⟩⟩⟩⟩⟩⟩⟩⟩
  all_goals try (simp at hlen)
  exact absurd rfl (h _ _ _ _ _ _ _ _ _ _ _ _ _ _ _ _ _)

theorem bgra_to_rgba_of_no_chunk (l : List Nat)
    (h : ∀ (b0 b1 b2 b3 b4 b5 b6 b7 b8 b9 b10 b11 b12 b13 b14 b15 : Nat)
      (rest : List Nat),
      l ≠ b0 :: b1 :: b2 :: b3 :: b4 :: b5 :: b6 :: b7 ::
          b8 :: b9 :: b10 :: b11 :: b12 :: b13 :: b14 :: b15 :: rest) :
    bgra_to_rgba l = l := by
  rw [bgra_to_rgba.eq_def]
  split
  · exact absurd rfl (h _ _ _ _ _ _ _ _ _ _ _ _ _ _ _ _ _)
  · rfl

/-- Bytes at positions at or past `16 * (len / 16)` (i.e. after the last
complete 16-byte chunk) are untouched by the conversion. -/
theorem bgra_to_rgba_getD_tail (data : List Nat) :
    ∀ i, 16 * (data.length / 16) ≤ i →
      (bgra_to_rgba data).getD i 0 = data.getD i 0 := by
  induction data using bgra_to_rgba.induct with
  | case1 b0 b1 b2 b3 b4 b5 b6 b7 b8 b9 b10 b11 b12 b13 b14 b15 rest ih =>
      intro i hi
      have hlen : (b0 :: b1 :: b2 :: b3 :: b4 :: b5 :: b6 :: b7 ::
          b8 :: b9 :: b10 :: b11 :: b12 :: b13 :: b14 :: b15 :: rest).length
          = rest.length + 16 := by simp
      rw [hlen] at hi
      have h16 : 16 ≤ i := by omega
      obtain ⟨j, rfl⟩ := Nat.exists_eq_add_of_le h16
      rw [bgra_to_rgba]
      rw [Nat.add_comm 16 j, getD_cons16, getD_cons16]
      exact ih j (by omega)
  | case2 l h =>
      intro i _
      rw [bgra_to_rgba_of_no_chunk l h]

/-- Pixels inside complete 16-byte chunks get the BGRA→RGBA channel swap. -/
theorem bgra_to_rgba_getD_chunk (data : List Nat) :
    ∀ k, 4 * k + 3 < 16 * (data.length / 16) →
      (bgra_to_rgba data).getD (4 * k) 0 = data.getD (4 * k + 2) 0 ∧
      (bgra_to_rgba data).getD (4 * k + 2) 0 = data.getD (4 * k) 0 ∧
      (bgra_to_rgba data).getD (4 * k + 1) 0 = data.getD (4 * k + 1) 0 ∧
      (bgra_to_rgba data).getD (4 * k + 3) 0 = data.getD (4 * k + 3) 0 := by
  induction data using bgra_to_rgba.induct with
  | case1 b0 b1 b2 b3 b4 b5 b6 b7 b8 b9 b10 b11 b12 b13 b14 b15 rest ih =>
      intro k hk
      rw [bgra_to_rgba]
      rcases Nat.lt_or_ge k 4 with hk4 | hk4
      · interval_cases k <;> simp [List.getD]
      · obtain ⟨k', rfl⟩ := Nat.exists_eq_add_of_le hk4
        have e0 : 4 * (4 + k') = 4 * k' + 16 := by ring
        have e1 : 4 * (4 + k') + 1 = (4 * k' + 1) + 16 := by ring
        have e2 : 4 * (4 + k') + 2 = (4 * k' + 2) + 16 := by ring
        have e3 : 4 * (4 + k') + 3 = (4 * k' + 3) + 16 := by ring
        rw [e3, e2, e1, e0, getD_cons16, getD_cons16, getD_cons16, getD_cons16,
          getD_cons16, getD_cons16, getD_cons16, getD_cons16]
        apply ih
        have hlen : (b0 :: b1 :: b2 :: b3 :: b4 :: b5 :: b6 :: b7 ::
            b8 :: b9 :: b10 :: b11 :: b12 :: b13 :: b14 :: b15 :: rest).length
            = rest.length + 16 := by simp
        rw [hlen] at hk
        omega
  | case2 l h =>
      intro k hk
      have := short_of_no_chunk l h
      omega

/-- C1: for every byte buffer whose length is a multiple of 16, after
`bgra_to_rgba` runs, for every pixel index `k` the output byte at `4k`
equals the input byte at `4k+2`, the output byte at `4k+2` equals the
input byte at `4k`, and the bytes at `4k+1` and `4k+3` are unchanged. -/
theorem bgra_to_rgba_pixel_swap_of_16_dvd (data : List Nat)
    (hlen : 16 ∣ data.length) (k : Nat) (hk : 4 * k + 3 < data.length) :
    (bgra_to_rgba data).getD (4 * k) 0 = data.getD (4 * k + 2) 0 ∧
    (bgra_to_rgba data).getD (4 * k + 2) 0 = data.getD (4 * k) 0 ∧
    (bgra_to_rgba data).getD (4 * k + 1) 0 = data.getD (4 * k + 1) 0 ∧
    (bgra_to_rgba data).getD (4 * k + 3) 0 = data.getD (4 * k + 3) 0 := by
  have h16 : 16 * (data.length / 16) = data.length := Nat.mul_div_cancel' hlen
  exact bgra_to_rgba_getD_chunk data k (by omega)

/-- Witness for C1 at the concrete 16-byte buffer `[3,1,4,1,5,9,2,6,5,3,5,8,9,7,9,3]`
and pixel index `k = 1`. -/
theorem bgra_to_rgba_pixel_swap_of_16_dvd_witness :
    (16 ∣ ([3,1,4,1,5,9,2,6,5,3,5,8,9,7,9,3] : List Nat).length ∧
      4 * 1 + 3 < ([3,1,4,1,5,9,2,6,5,3,5,8,9,7,9,3] : List Nat).length) ∧
    ((bgra_to_rgba [3,1,4,1,5,9,2,6,5,3,5,8,9,7,9,3]).getD (4 * 1) 0 =
        ([3,1,4,1,5,9,2,6,5,3,5,8,9,7,9,3] : List Nat).getD (4 * 1 + 2) 0 ∧
      (bgra_to_rgba [3,1,4,1,5,9,2,6,5,3,5,8,9,7,9,3]).getD (4 * 1 + 2) 0 =
        ([3,1,4,1,5,9,2,6,5,3,5,8,9,7,9,3] : List Nat).getD (4 * 1) 0 ∧
      (bgra_to_rgba [3,1,4,1,5,9,2,6,5,3,5,8,9,7,9,3]).getD (4 * 1 + 1) 0 =
        ([3,1,4,1,5,9,2,6,5,3,5,8,9,7,9,3] : List Nat).getD (4 * 1 + 1) 0 ∧
      (bgra_to_rgba [3,1,4,1,5,9,2,6,5,3,5,8,9,7,9,3]).getD (4 * 1 + 3) 0 =
        ([3,1,4,1,5,9,2,6,5,3,5,8,9,7,9,3] : List Nat).getD (4 * 1 + 3) 0) :=
  ⟨⟨by decide, by decide⟩,
    bgra_to_rgba_pixel_swap_of_16_dvd [3,1,4,1,5,9,2,6,5,3,5,8,9,7,9,3]
      (by decide) 1 (by decide)⟩

/-- C2 counterexample: `[1,2,3,4]` has length a multiple of 4 but not of 16,
yet `bgra_to_rgba` leaves it unchanged, so the claimed per-pixel swap fails
for its (single, trailing) pixel: the output byte 0 is not the input byte 2. -/
theorem bgra_to_rgba_no_scalar_tail_cex :
    (([1,2,3,4] : List Nat).length % 4 = 0 ∧
      ¬ (16 ∣ ([1,2,3,4] : List Nat).length)) ∧
    bgra_to_rgba [1,2,3,4] = [1,2,3,4] ∧
    ¬ ((bgra_to_rgba [1,2,3,4]).getD 0 0 = ([1,2,3,4] : List Nat).getD 2 0) := by
  decide

/-- C2 amended: for every byte buffer whose length is a multiple of 4 but
not a multiple of 16, `bgra_to_rgba` performs the per-pixel channel swap
only for pixels inside complete 16-byte chunks, and every trailing byte
after the last complete 16-byte chunk is left unchanged (there is no
scalar fallback for the tail). -/
theorem bgra_to_rgba_no_scalar_tail (data : List Nat)
    (_h4 : data.length % 4 = 0) (_h16 : ¬ (16 ∣ data.length)) :
    (∀ i, 16 * (data.length / 16) ≤ i →
      (bgra_to_rgba data).getD i 0 = data.getD i 0) ∧
    (∀ k, 4 * k + 3 < 16 * (data.length / 16) →
      (bgra_to_rgba data).getD (4 * k) 0 = data.getD (4 * k + 2) 0 ∧
      (bgra_to_rgba data).getD (4 * k + 2) 0 = data.getD (4 * k) 0 ∧
      (bgra_to_rgba data).getD (4 * k + 1) 0 = data.getD (4 * k + 1) 0 ∧
      (bgra_to_rgba data).getD (4 * k + 3) 0 = data.getD (4 * k + 3) 0) :=
  ⟨fun i hi => bgra_to_rgba_getD_tail data i hi,
   fun k hk => bgra_to_rgba_getD_chunk data k hk⟩

/-- Witness for the amended C2 at a concrete 20-byte buffer. -/
theorem bgra_to_rgba_no_scalar_tail_witness :
    (([3,1,4,1,5,9,2,6,5,3,5,8,9,7,9,3,2,3,8,4] : List Nat).length % 4 = 0 ∧
      ¬ (16 ∣ ([3,1,4,1,5,9,2,6,5,3,5,8,9,7,9,3,2,3,8,4] : List Nat).length)) ∧
    ((∀ i, 16 * (([3,1,4,1,5,9,2,6,5,3,5,8,9,7,9,3,2,3,8,4] : List Nat).length / 16) ≤ i →
      (bgra_to_rgba [3,1,4,1,5,9,2,6,5,3,5,8,9,7,9,3,2,3,8,4]).getD i 0 =
        ([3,1,4,1,5,9,2,6,5,3,5,8,9,7,9,3,2,3,8,4] : List Nat).getD i 0) ∧
    (∀ k, 4 * k + 3 < 16 * (([3,1,4,1,5,9,2,6,5,3,5,8,9,7,9,3,2,3,8,4] : List Nat).length / 16) →
      (bgra_to_rgba [3,1,4,1,5,9,2,6,5,3,5,8,9,7,9,3,2,3,8,4]).getD (4 * k) 0 =
        ([3,1,4,1,5,9,2,6,5,3,5,8,9,7,9,3,2,3,8,4] : List Nat).getD (4 * k + 2) 0 ∧
      (bgra_to_rgba [3,1,4,1,5,9,2,6,5,3,5,8,9,7,9,3,2,3,8,4]).getD (4 * k + 2) 0 =
        ([3,1,4,1,5,9,2,6,5,3,5,8,9,7,9,3,2,3,8,4] : List Nat).getD (4 * k) 0 ∧
      (bgra_to_rgba [3,1,4,1,5,9,2,6,5,3,5,8,9,7,9,3,2,3,8,4]).getD (4 * k + 1) 0 =
        ([3,1,4,1,5,9,2,6,5,3,5,8,9,7,9,3,2,3,8,4] : List Nat).getD (4 * k + 1) 0 ∧
      (bgra_to_rgba [3,1,4,1,5,9,2,6,5,3,5,8,9,7,9,3,2,3,8,4]).getD (4 * k + 3) 0 =
        ([3,1,4,1,5,9,2,6,5,3,5,8,9,7,9,3,2,3,8,4] : List Nat).getD (4 * k + 3) 0)) :=
  ⟨⟨by decide, by decide⟩,
    bgra_to_rgba_no_scalar_tail [3,1,4,1,5,9,2,6,5,3,5,8,9,7,9,3,2,3,8,4]
      (by decide) (by decide)⟩

/-- C9: applying `bgra_to_rgba` twice restores any byte buffer to its
original contents — the conversion is an involution, for buffers of any
length (the 16-byte shuffle is self-inverse and the tail is untouched). -/
theorem bgra_to_rgba_involution (l : List Nat) :
    bgra_to_rgba (bgra_to_rgba l) = l := by
  induction l using bgra_to_rgba.induct with
  | case1 b0 b1 b2 b3 b4 b5 b6 b7 b8 b9 b10 b11 b12 b13 b14 b15 rest ih =>
      simp [bgra_to_rgba, ih]
  | case2 l h =>
      have hfix : bgra_to_rgba l = l := bgra_to_rgba_of_no_chunk l h
      rw [hfix, hfix]

/-! ### BorderCropper: `crop_transparent_borders`

The source scans rows top-down for the first row with a non-zero-alpha
pixel (`top`), rows bottom-up from `height-1` down to `top` (`bottom`),
then columns left-to-right and right-to-left; the two column scans check
the rows `for y in top..bottom`, i.e. the half-open range `[top, bottom)`
exactly as the Rust `..` operator does.  Any scan that finds nothing
returns `RgbaImage::new(1, 1)` (an all-zero 1×1 image); otherwise the
view `(left, top, right-left+1, bottom-top+1)` is materialised. -/

/-- One RGBA pixel; channel values are modelled as `Nat`. -/
structure Rgba where
  r : Nat
  g : Nat
  b : Nat
  a : Nat
deriving DecidableEq

/-- An RGBA image: dimensions plus a pixel lookup (`get_pixel x y`);
only coordinates with `x < width` and `y < height` are meaningful. -/
structure Img where
  width : Nat
  height : Nat
  pix : Nat → Nat → Rgba

/-- `RgbaImage::new(1, 1)`: a fully transparent (all-zero) 1×1 image. -/
def blankImg : Img :=
  { width := 1, height := 1, pix := fun _ _ => ⟨0, 0, 0, 0⟩ }

/-- Does row `y` contain a pixel with non-zero alpha (inner loop of the
row scans)? -/
def rowHasContent (img : Img) (y : Nat) : Bool :=
  (List.range img.width).any (fun x => (img.pix x y).a != 0)

/-- Does column `x` contain a pixel with non-zero alpha in the half-open
row range `[top, bottom)` (inner loop `for y in top..bottom` of the
column scans)? -/
def colHasContent (img : Img) (x top bottom : Nat) : Bool :=
  (List.range' top (bottom - top)).any (fun y => (img.pix x y).a != 0)

/-- `crop_transparent_borders` from the source: the four sequential scans,
each bailing out to a fresh 1×1 image when it finds no content, followed
by the `view(left, top, right-left+1, bottom-top+1).to_image()` crop. -/
def crop_transparent_borders (img : Img) : Img :=
  match (List.range img.height).find? (fun y => rowHasContent img y) with
  | none => blankImg
  | some top =>
    match ((List.range' top (img.height - top)).reverse).find?
        (fun y => rowHasContent img y) with
    | none => blankImg
    | some bottom =>
      match (List.range img.width).find? (fun x => colHasContent img x top bottom) with
      | none => blankImg
      | some left =>
        match ((List.range' left (img.width - left)).reverse).find?
            (fun x => colHasContent img x top bottom) with
        | none => blankImg
        | some right =>
          { width := right - left + 1, height := bottom - top + 1,
            pix := fun x y => img.pix (left + x) (top + y) }

/-- The 3×3 image whose only non-zero-alpha pixel is `⟨9,8,7,5⟩` at
`(1, 1)`. -/
def imgSinglePixel : Img :=
  { width := 3, height := 3,
    pix := fun x y => if x = 1 ∧ y = 1 then ⟨9, 8, 7, 5⟩ else ⟨0, 0, 0, 0⟩ }

/-- C3 (code bug): `imgSinglePixel` has exactly one non-zero-alpha pixel,
at `(1, 1)`, but `crop_transparent_borders` returns the fully transparent
1×1 image rather than a 1×1 image holding that pixel's color: the column
scans only examine the half-open row range `[top, bottom)`, which is
empty when all content lies in a single row. -/
theorem crop_single_pixel_returns_blank :
    (imgSinglePixel.pix 1 1).a ≠ 0 ∧
    (∀ x, x < imgSinglePixel.width → ∀ y, y < imgSinglePixel.height →
      (x ≠ 1 ∨ y ≠ 1) → (imgSinglePixel.pix x y).a = 0) ∧
    crop_transparent_borders imgSinglePixel = blankImg ∧
    (crop_transparent_borders imgSinglePixel).pix 0 0 ≠ imgSinglePixel.pix 1 1 := by
  refine ⟨by decide, by decide, rfl, by decide⟩

/-- The fully opaque 2×1 image with every pixel `⟨5,6,7,8⟩`. -/
def imgOpaqueRow : Img :=
  { width := 2, height := 1, pix := fun _ _ => ⟨5, 6, 7, 8⟩ }

/-- C4 (code bug): a fully opaque 2×1 image is collapsed to the fully
transparent 1×1 image instead of being returned unchanged: with `top =
bottom = 0` the column scans examine the empty row range `[0, 0)`, find
nothing, and bail out. -/
theorem crop_fully_opaque_row_collapses :
    (∀ x, x < imgOpaqueRow.width → ∀ y, y < imgOpaqueRow.height →
      (imgOpaqueRow.pix x y).a ≠ 0) ∧
    crop_transparent_borders imgOpaqueRow = blankImg ∧
    (crop_transparent_borders imgOpaqueRow).width ≠ imgOpaqueRow.width ∧
    (crop_transparent_borders imgOpaqueRow).pix 0 0 ≠ imgOpaqueRow.pix 0 0 := by
  refine ⟨by decide, rfl, by decide, by decide⟩

/-- C5: an image with no non-zero-alpha pixel is cropped to the fully
transparent 1×1 image (no error is signalled — the function is total),
and for every input image the result's width and height are at least 1. -/
theorem crop_transparent_blank_and_min_dims (img : Img)
    (htrans : ∀ x, x < img.width → ∀ y, y < img.height → (img.pix x y).a = 0) :
    crop_transparent_borders img = blankImg ∧
    ∀ im : Img, 1 ≤ (crop_transparent_borders im).width ∧
      1 ≤ (crop_transparent_borders im).height := by
  constructor
  · have hrow : ∀ y ∈ List.range img.height, ¬ (rowHasContent img y = true) := by
      intro y hy
      rw [List.mem_range] at hy
      simp only [rowHasContent, List.any_eq_true, List.mem_range, bne_iff_ne]
      push_neg
      intro x hx
      exact htrans x hx y hy
    have hfind : (List.range img.height).find? (fun y => rowHasContent img y) = none :=
      List.find?_eq_none.mpr hrow
    unfold crop_transparent_borders
    rw [hfind]
  · intro im
    unfold crop_transparent_borders
    split
    · exact ⟨le_refl 1, le_refl 1⟩
    split
    · exact ⟨le_refl 1, le_refl 1⟩
    split
    · exact ⟨le_refl 1, le_refl 1⟩
    split
    · exact ⟨le_refl 1, le_refl 1⟩
    constructor
    · simp
    · simp

/-- Witness for C5 at a concrete fully transparent 2×2 image. -/
theorem crop_transparent_blank_and_min_dims_witness :
    (∀ x, x < (2 : Nat) → ∀ y, y < (2 : Nat) →
      ((Img.mk 2 2 (fun _ _ => ⟨0, 0, 0, 0⟩)).pix x y).a = 0) ∧
    (crop_transparent_borders (Img.mk 2 2 (fun _ _ => ⟨0, 0, 0, 0⟩)) = blankImg ∧
      ∀ im : Img, 1 ≤ (crop_transparent_borders im).width ∧
        1 ≤ (crop_transparent_borders im).height) :=
  ⟨by decide,
    crop_transparent_blank_and_min_dims (Img.mk 2 2 (fun _ _ => ⟨0, 0, 0, 0⟩))
      (by decide)⟩

/-! ### ExtractionOrchestrator: `extract_and_save_icon_from_file` and
`extract_and_save_icon_umid`

The orchestrators are embedded as state-passing functions.  The state
holds the icon cache, a log of collaborator invocations (newest first)
and a counter driving the freshly generated asset filenames.  External
collaborators (filesystem queries, the platform icon provider, shortcut
resolution, the UWP icon lookup, asset copy/save outcomes and the
persistence flush) are an explicit environment of oracles.  The `.lnk` →
target recursion of the source has no guard, so the embedding carries a
fuel parameter; `fuel = 0` yields a dedicated `noFuel` error that the
source cannot produce. -/

/-- `to_lowercase` on the extension string, written so that it reduces on
concrete inputs. -/
def strToLower (s : String) : String := ⟨s.data.map Char.toLower⟩

/-- `seelen_core::state::Icon`: a stored icon descriptor. -/
inductive Icon where
  | static (filename : String)
  | dynamic (light dark : String) (mask : Option String)
deriving DecidableEq

/-- Modelled from the spec: the `IconCache` mapping (the
`IconPacksManager` lives outside the sources at hand), partitioned into
the app-icon namespace (keyed by absolute path or app identity) and the
file-icon namespace (keyed by file extension); inserting overwrites. -/
structure Cache where
  appIcons : List (String × Icon)
  fileIcons : List (String × Icon)
deriving DecidableEq

/-- Modelled from the spec: `get_app_icon(key)`. -/
def Cache.getAppIcon (c : Cache) (k : String) : Option Icon :=
  (c.appIcons.find? (fun e => e.1 == k)).map (fun e => e.2)

/-- Modelled from the spec: `get_file_icon(extension_or_path)` — lookup
keyed by the (lower-cased) file extension. -/
def Cache.getFileIcon (c : Cache) (ext : String) : Option Icon :=
  (c.fileIcons.find? (fun e => e.1 == ext)).map (fun e => e.2)

/-- Modelled from the spec: `add_system_app_icon(key, descriptor)`;
inserting overwrites (the newest entry shadows older ones). -/
def Cache.addAppIcon (c : Cache) (k : String) (i : Icon) : Cache :=
  { c with appIcons := (k, i) :: c.appIcons }

/-- Modelled from the spec: `add_system_file_icon(extension, descriptor)`. -/
def Cache.addFileIcon (c : Cache) (ext : String) (i : Icon) : Cache :=
  { c with fileIcons := (ext, i) :: c.fileIcons }

/-- A collaborator invocation, recorded in the state's log. -/
inductive Event where
  | cacheLookup
  | retrieval (path : String)
  | resolveLnk (path : String)
  | uwpLookup (aumid : String)
  | copyAsset (dst : String)
  | saveAsset (dst : String)
deriving DecidableEq

/-- The orchestrator's observable state: the cache, the invocation log
(newest first) and the counter feeding fresh asset filenames. -/
structure St where
  cache : Cache
  events : List Event
  uuidCtr : Nat
deriving DecidableEq

def St.log (s : St) (e : Event) : St := { s with events := e :: s.events }

def St.bumpUuid (s : St) : St := { s with uuidCtr := s.uuidCtr + 1 }

def St.addAppIcon (s : St) (k : String) (i : Icon) : St :=
  { s with cache := s.cache.addAppIcon k i }

def St.addFileIcon (s : St) (ext : String) (i : Icon) : St :=
  { s with cache := s.cache.addFileIcon ext i }

/-- The external collaborators consumed by the orchestrators. -/
structure Env where
  /-- `Path::exists()`. -/
  pathExists : String → Bool
  /-- `Path::is_dir()`. -/
  isDir : String → Bool
  /-- `Path::extension()` (before lower-casing). -/
  pathExtension : String → Option String
  /-- `Path::file_name()`. -/
  fileName : String → Option String
  /-- Does `get_icon_from_file(path)` (the platform icon provider) succeed? -/
  retrieveOk : String → Bool
  /-- Does `RgbaImage::save` to the given store filename succeed? -/
  saveOk : String → Bool
  /-- Does `std::fs::copy` to the given store filename succeed? -/
  copyOk : String → Bool
  /-- `WindowsApi::resolve_lnk_target(path)`, `None` on failure. -/
  resolveLnk : String → Option String
  /-- `UwpManager::get_high_quality_icon_path`: light/dark asset paths. -/
  uwpIconPaths : String → Option (String × String)
  /-- `START_MENU_MANAGER…search_shortcut_with_same_umid`. -/
  shortcutForUmid : String → Option String
  /-- Does `write_system_icon_pack()` (the persistence flush) succeed? -/
  flushOk : Bool
  /-- `uuid::Uuid::new_v4()`, drawn in sequence from the state counter. -/
  uuidName : Nat → String

/-- The error outcomes of an extraction. -/
inductive ExtractErr where
  | notAFile
  | noFileName
  | ioCopy
  | ioSave
  | flushFail
  | resolution
  | ups
  | uwpFail
  | noShortcut
  | extractionFailed
  | noFuel
deriving DecidableEq

instance : DecidableEq (Except ExtractErr Unit) := fun a b =>
  match a, b with
  | .ok (), .ok () => isTrue rfl
  | .error e1, .error e2 =>
      if h : e1 = e2 then isTrue (by rw [h]) else isFalse (by simp [h])
  | .ok _, .error _ => isFalse (by simp)
  | .error _, .ok _ => isFalse (by simp)

/-- `icon_manager.write_system_icon_pack()?; return Ok(())`: flush the
cache, propagating a flush failure. -/
def St.flushThen (s : St) (env : Env) : Except ExtractErr Unit × St :=
  if env.flushOk then (.ok (), s) else (.error .flushFail, s)

/-- The cache-hit check of the source: `get_app_icon(&key)` when the
file is an `.exe`/`.lnk`, `get_file_icon(origin)` otherwise. -/
def cacheHit (c : Cache) (isApp : Bool) (key ext : String) : Bool :=
  if isApp then (c.getAppIcon key).isSome else (c.getFileIcon ext).isSome

/-- Record a directly retrieved icon: `add_system_app_icon(&key, …)` for
`.exe`/`.lnk`, `add_system_file_icon(&origin_ext, …)` otherwise. -/
def recordIcon (s : St) (isApp : Bool) (key ext fname : String) : St :=
  if isApp then s.addAppIcon key (.static fname) else s.addFileIcon ext (.static fname)

/-- `extract_and_save_icon_from_file` from the source: existence check,
extension classification, cache-hit short-circuit (app namespace for
`.exe`/`.lnk`, file-extension namespace otherwise), the `.url`
placeholder copy, direct retrieval via the platform icon provider, and
the `.lnk` → target fallback that recurses and aliases the shortcut's
key to the target's descriptor.  `fuel` bounds the unguarded recursion. -/
def extractAndSaveIconFromFile (env : Env) :
    Nat → String → St → Except ExtractErr Unit × St
  | 0, _, s => (.error .noFuel, s)
  | fuel + 1, origin, s₀ =>
    if !env.pathExists origin || env.isDir origin then
      (.error .notAFile, s₀)
    else
      match (env.pathExtension origin).map strToLower with
      | none => (.ok (), s₀)
      | some ext =>
        let key := origin
        let isExe := ext == "exe"
        let isLnk := ext == "lnk"
        let s := s₀.log .cacheLookup
        if cacheHit s.cache (isExe || isLnk) key ext then
          (.ok (), s)
        else if (env.fileName origin).isNone then
          (.error .noFileName, s)
        else
          let toStoreFilename := env.uuidName s.uuidCtr ++ ".png"
          let s := s.bumpUuid
          if ext == "url" then
            let s := s.log (.copyAsset toStoreFilename)
            if env.copyOk toStoreFilename then
              (s.addFileIcon "url" (.static toStoreFilename)).flushThen env
            else (.error .ioCopy, s)
          else
            let s := s.log (.retrieval origin)
            if env.retrieveOk origin then
              let s := s.log (.saveAsset toStoreFilename)
              if env.saveOk toStoreFilename then
                (recordIcon s (isExe || isLnk) key ext toStoreFilename).flushThen env
              else (.error .ioSave, s)
            else if isLnk then
              let s := s.log (.resolveLnk origin)
              match env.resolveLnk origin with
              | none => (.error .resolution, s)
              | some target =>
                match extractAndSaveIconFromFile env fuel target s with
                | (.error e, s1) => (.error e, s1)
                | (.ok _, s1) =>
                  match s1.cache.getAppIcon target with
                  | none => (.error .ups, s1)
                  | some targetIcon =>
                    (s1.addAppIcon key targetIcon).flushThen env
            else (.error .extractionFailed, s)

/-- `AppUserModelId`: the packaged-app identity (`Appx`) or the
legacy/property-store identity; both deref to their id string. -/
inductive AppUserModelId where
  | appx (umid : String)
  | propertyStore (umid : String)
deriving DecidableEq

/-- `aumid.as_ref()`: the underlying id string. -/
def AppUserModelId.key : AppUserModelId → String
  | .appx u => u
  | .propertyStore u => u

/-- `extract_and_save_icon_umid` from the source: cache-hit
short-circuit on the identity key, then either the UWP light/dark asset
copy (`Appx`) or the shortcut-index indirection that delegates to
`extract_and_save_icon_from_file` and aliases the identity's key
(`PropertyStore`). -/
def extractAndSaveIconUmid (env : Env) (fuel : Nat) (aumid : AppUserModelId)
    (s₀ : St) : Except ExtractErr Unit × St :=
  let s := s₀.log .cacheLookup
  if (s.cache.getAppIcon aumid.key).isSome then
    (.ok (), s)
  else
    match aumid with
    | .appx a =>
      let s := s.log (.uwpLookup a)
      match env.uwpIconPaths a with
      | none => (.error .uwpFail, s)
      | some _lightDark =>
        let name := env.uuidName s.uuidCtr
        let s := s.bumpUuid
        let s := s.log (.copyAsset (name ++ "_light.png"))
        if env.copyOk (name ++ "_light.png") then
          let s := s.log (.copyAsset (name ++ "_dark.png"))
          if env.copyOk (name ++ "_dark.png") then
            (s.addAppIcon a
              (.dynamic (name ++ "_light.png") (name ++ "_dark.png") none)).flushThen env
          else (.error .ioCopy, s)
        else (.error .ioCopy, s)
    | .propertyStore a =>
      match env.shortcutForUmid a with
      | none => (.error .noShortcut, s)
      | some lnk =>
        match extractAndSaveIconFromFile env fuel lnk s with
        | (.error e, s1) => (.error e, s1)
        | (.ok _, s1) =>
          match s1.cache.getAppIcon lnk with
          | none => (.error .ups, s1)
          | some targetIcon =>
            (s1.addAppIcon a targetIcon).flushThen env

end IconExtractor

namespace IconExtractor

/-! ### Small facts about the state and the cache -/

theorem St.cache_log (s : St) (e : Event) : (s.log e).cache = s.cache := rfl

theorem St.events_log (s : St) (e : Event) : (s.log e).events = e :: s.events := rfl

theorem St.cache_bumpUuid (s : St) : s.bumpUuid.cache = s.cache := rfl

theorem St.cache_addAppIcon (s : St) (k : String) (i : Icon) :
    (St.addAppIcon s k i).cache = s.cache.addAppIcon k i := rfl

theorem Cache.getAppIcon_add (c : Cache) (k k2 : String) (i : Icon) :
    (c.addAppIcon k i).getAppIcon k2 =
      if k == k2 then some i else c.getAppIcon k2 := by
  by_cases h : (k == k2) = true
  · simp [Cache.addAppIcon, Cache.getAppIcon, List.find?_cons_of_pos, h]
  · rw [if_neg (by simp [h])]
    unfold Cache.addAppIcon Cache.getAppIcon
    rw [List.find?_cons_of_neg]
    simp [h]

/-- Is an event an invocation of the platform icon provider
(`get_icon_from_file`)? -/
def isRetrievalEvent : Event → Bool
  | .retrieval _ => true
  | _ => false

/-- How many retrieval-collaborator calls a log records. -/
def countRetrievals (evs : List Event) : Nat := evs.countP isRetrievalEvent

/-- Does the cache hold a descriptor for path `p` in the namespace the
orchestrator consults for `p` (app namespace for `.exe`/`.lnk`, the
file-extension namespace otherwise)? -/
def descriptorRecorded (env : Env) (p : String) (c : Cache) : Bool :=
  match (env.pathExtension p).map strToLower with
  | none => false
  | some ext => cacheHit c (ext == "exe" || ext == "lnk") p ext

/-! ### C10: nonexistent paths and directories fail before anything else -/

/-- C10: for every path that does not exist or is a directory,
`extract_and_save_icon_from_file` returns an error and leaves the state
untouched: the cache is neither consulted nor modified and no
collaborator is invoked (the event log is unchanged) — this applies to
extension-less paths as well, since the existence check precedes the
extension dispatch. -/
theorem extract_missing_or_dir_errors_early (env : Env) (fuel : Nat) (p : String)
    (s : St) (hfuel : 0 < fuel)
    (h : env.pathExists p = false ∨ env.isDir p = true) :
    (extractAndSaveIconFromFile env fuel p s).1 = .error .notAFile ∧
    (extractAndSaveIconFromFile env fuel p s).2 = s := by
  obtain ⟨n, rfl⟩ : ∃ n, fuel = n + 1 := by
    rcases fuel with _ | n
    · omega
    · exact ⟨n, rfl⟩
  have hguard : (!env.pathExists p || env.isDir p) = true := by
    rcases h with h | h <;> simp [h]
  simp [extractAndSaveIconFromFile, hguard]

/-- Witness for C10: a concrete environment in which `"ghost.exe"` does
not exist. -/
def envMissing : Env :=
  { pathExists := fun _ => false
    isDir := fun _ => false
    pathExtension := fun _ => some "exe"
    fileName := fun q => some q
    retrieveOk := fun _ => true
    saveOk := fun _ => true
    copyOk := fun _ => true
    resolveLnk := fun _ => none
    uwpIconPaths := fun _ => none
    shortcutForUmid := fun _ => none
    flushOk := true
    uuidName := fun n => "u" ++ Nat.repr n }

/-- The empty starting state: empty cache, no events, counter 0. -/
def st0 : St := { cache := { appIcons := [], fileIcons := [] }, events := [], uuidCtr := 0 }

theorem extract_missing_or_dir_errors_early_witness :
    (0 < 1 ∧ (envMissing.pathExists "ghost.exe" = false ∨
      envMissing.isDir "ghost.exe" = true)) ∧
    ((extractAndSaveIconFromFile envMissing 1 "ghost.exe" st0).1 = .error .notAFile ∧
      (extractAndSaveIconFromFile envMissing 1 "ghost.exe" st0).2 = st0) :=
  ⟨⟨by decide, Or.inl (by decide)⟩,
    extract_missing_or_dir_errors_early envMissing 1 "ghost.exe" st0
      (by decide) (Or.inl (by decide))⟩

/-! ### C6: the cache-hit short-circuit on a second invocation -/

/-- C6 (amended): for both kinds of SourceKey — a path handled by
`extract_and_save_icon_from_file` and an application identity handled by
`extract_and_save_icon_umid` — if a first invocation succeeds and
records a descriptor in the appropriate namespace, a second sequential
invocation for the same key finds the cache hit and returns success with
the cache unchanged and with no additional retrieval-collaborator call
(the retrieval count of the log does not grow). -/
theorem second_extraction_hits_cache (env : Env) (fuel : Nat) (p : String)
    (aumid : AppUserModelId) (s0 s1 t0 t1 : St)
    (h1 : extractAndSaveIconFromFile env fuel p s0 = (.ok (), s1))
    (hrec : descriptorRecorded env p s1.cache = true)
    (_h2 : extractAndSaveIconUmid env fuel aumid t0 = (.ok (), t1))
    (hrecU : (t1.cache.getAppIcon aumid.key).isSome = true) :
    ((extractAndSaveIconFromFile env fuel p s1).1 = .ok () ∧
      (extractAndSaveIconFromFile env fuel p s1).2.cache = s1.cache ∧
      countRetrievals (extractAndSaveIconFromFile env fuel p s1).2.events =
        countRetrievals s1.events) ∧
    ((extractAndSaveIconUmid env fuel aumid t1).1 = .ok () ∧
      (extractAndSaveIconUmid env fuel aumid t1).2.cache = t1.cache ∧
      countRetrievals (extractAndSaveIconUmid env fuel aumid t1).2.events =
        countRetrievals t1.events) := by
  rcases fuel with _ | n
  · exfalso
    simp [extractAndSaveIconFromFile] at h1
  constructor
  · -- path key, via extract_and_save_icon_from_file
    by_cases hg : (!env.pathExists p || env.isDir p) = true
    · exfalso
      simp [extractAndSaveIconFromFile, hg] at h1
    rw [Bool.not_eq_true] at hg
    rcases hext : (env.pathExtension p).map strToLower with _ | ext
    · exfalso
      simp [descriptorRecorded, hext] at hrec
    simp only [descriptorRecorded, hext] at hrec
    simp only [extractAndSaveIconFromFile, hg, hext, Bool.false_eq_true, if_false,
      St.cache_log]
    rw [hrec]
    simp [countRetrievals, St.events_log, St.cache_log, isRetrievalEvent]
  · -- app-identity key, via extract_and_save_icon_umid
    simp only [extractAndSaveIconUmid, St.cache_log, hrecU, if_true]
    simp [countRetrievals, St.events_log, St.cache_log, isRetrievalEvent]

/-- The environment for the `.lnk` fallback scenario: `"a.lnk"` exists,
its direct retrieval fails, it resolves to `"b.exe"` whose retrieval
succeeds; saves, copies and flushes all succeed. -/
def envC6 : Env :=
  { pathExists := fun q => q == "a.lnk" || q == "b.exe"
    isDir := fun _ => false
    pathExtension := fun q => if q == "a.lnk" then some "lnk"
      else if q == "b.exe" then some "exe" else none
    fileName := fun q => some q
    retrieveOk := fun q => q == "b.exe"
    saveOk := fun _ => true
    copyOk := fun _ => true
    resolveLnk := fun q => if q == "a.lnk" then some "b.exe" else none
    uwpIconPaths := fun _ => none
    shortcutForUmid := fun _ => none
    flushOk := true
    uuidName := fun n => "u" ++ Nat.repr n }

/-- C6 counterexample: for the `.lnk` key `"a.lnk"` the first invocation
succeeds and records a descriptor (so the claim's hypotheses hold), and
the second invocation is a pure cache hit — yet the two invocations
together perform two retrieval-collaborator calls, not at most one: the
first invocation already calls the provider once for `"a.lnk"` (which
fails) and once for the resolved target `"b.exe"`. -/
theorem two_sequential_calls_two_retrievals :
    (extractAndSaveIconFromFile envC6 2 "a.lnk" st0).1 = .ok () ∧
    descriptorRecorded envC6 "a.lnk"
      (extractAndSaveIconFromFile envC6 2 "a.lnk" st0).2.cache = true ∧
    ¬ (countRetrievals (extractAndSaveIconFromFile envC6 2 "a.lnk"
        (extractAndSaveIconFromFile envC6 2 "a.lnk" st0).2).2.events ≤ 1) := by
  decide

/-- `envC6` extended so that the identity `"app"` also has UWP theme
icons: both SourceKey kinds can be extracted. -/
def envC6u : Env :=
  { envC6 with uwpIconPaths := fun _ => some ("light-src.png", "dark-src.png") }

/-- Witness for the amended C6: for the path key `"a.lnk"` and the
app-identity key `Appx "app"`, the first invocations succeed and record
descriptors, and the second invocations succeed, change nothing in the
cache, and add no retrieval call. -/
theorem second_extraction_hits_cache_witness :
    (extractAndSaveIconFromFile envC6u 2 "a.lnk" st0 =
        (.ok (), (extractAndSaveIconFromFile envC6u 2 "a.lnk" st0).2) ∧
      descriptorRecorded envC6u "a.lnk"
        (extractAndSaveIconFromFile envC6u 2 "a.lnk" st0).2.cache = true ∧
      extractAndSaveIconUmid envC6u 2 (.appx "app") st0 =
        (.ok (), (extractAndSaveIconUmid envC6u 2 (.appx "app") st0).2) ∧
      ((extractAndSaveIconUmid envC6u 2 (.appx "app")
        st0).2.cache.getAppIcon (AppUserModelId.appx "app").key).isSome = true) ∧
    (((extractAndSaveIconFromFile envC6u 2 "a.lnk"
        (extractAndSaveIconFromFile envC6u 2 "a.lnk" st0).2).1 = .ok () ∧
      (extractAndSaveIconFromFile envC6u 2 "a.lnk"
        (extractAndSaveIconFromFile envC6u 2 "a.lnk" st0).2).2.cache =
        (extractAndSaveIconFromFile envC6u 2 "a.lnk" st0).2.cache ∧
      countRetrievals (extractAndSaveIconFromFile envC6u 2 "a.lnk"
        (extractAndSaveIconFromFile envC6u 2 "a.lnk" st0).2).2.events =
        countRetrievals (extractAndSaveIconFromFile envC6u 2 "a.lnk" st0).2.events) ∧
    ((extractAndSaveIconUmid envC6u 2 (.appx "app")
        (extractAndSaveIconUmid envC6u 2 (.appx "app") st0).2).1 = .ok () ∧
      (extractAndSaveIconUmid envC6u 2 (.appx "app")
        (extractAndSaveIconUmid envC6u 2 (.appx "app") st0).2).2.cache =
        (extractAndSaveIconUmid envC6u 2 (.appx "app") st0).2.cache ∧
      countRetrievals (extractAndSaveIconUmid envC6u 2 (.appx "app")
        (extractAndSaveIconUmid envC6u 2 (.appx "app") st0).2).2.events =
        countRetrievals (extractAndSaveIconUmid envC6u 2 (.appx "app") st0).2.events)) :=
  ⟨⟨by decide, by decide, by decide, by decide⟩,
    second_extraction_hits_cache envC6u 2 "a.lnk" (.appx "app") st0
      (extractAndSaveIconFromFile envC6u 2 "a.lnk" st0).2 st0
      (extractAndSaveIconUmid envC6u 2 (.appx "app") st0).2
      (by decide) (by decide) (by decide) (by decide)⟩

/-! ### C7: the `.lnk` → target fallback aliases the target's descriptor -/

/-- The state right before the `.lnk` → target recursion: the cache
lookup, the failed direct retrieval and the target resolution have been
logged, and the filename counter was advanced for the (unused) store
name. -/
def lnkMidState (p : String) (s : St) : St :=
  (((s.log .cacheLookup).bumpUuid).log (.retrieval p)).log (.resolveLnk p)

/-- C7: for a `.lnk` path whose direct icon retrieval fails but whose
target resolves and whose own extraction succeeds recording a usable
descriptor under the target's key, the overall extraction succeeds (the
direct-retrieval failure is not surfaced), and the descriptor recorded
under the shortcut's key equals the one recorded under the target's key
(the descriptor value is copied). -/
theorem lnk_fallback_aliases_target_descriptor (env : Env) (fuel : Nat)
    (p t : String) (s s2 : St) (ic : Icon)
    (hex : env.pathExists p = true) (hdir : env.isDir p = false)
    (hext : (env.pathExtension p).map strToLower = some "lnk")
    (hmiss : s.cache.getAppIcon p = none)
    (hfn : (env.fileName p).isNone = false)
    (hfail : env.retrieveOk p = false)
    (hres : env.resolveLnk p = some t)
    (hflush : env.flushOk = true)
    (hrecur : extractAndSaveIconFromFile env fuel t (lnkMidState p s) = (.ok (), s2))
    (hic : s2.cache.getAppIcon t = some ic) :
    (extractAndSaveIconFromFile env (fuel + 1) p s).1 = .ok () ∧
    (extractAndSaveIconFromFile env (fuel + 1) p s).2.cache.getAppIcon p = some ic ∧
    (extractAndSaveIconFromFile env (fuel + 1) p s).2.cache.getAppIcon t = some ic := by
  have hguard : (!env.pathExists p || env.isDir p) = false := by
    simp [hex, hdir]
  unfold lnkMidState at hrecur
  simp only [extractAndSaveIconFromFile, cacheHit, hguard, hext, Bool.false_eq_true,
    if_false, St.cache_log, hmiss, hfn, hfail, hres, hrecur]
  simp only [Option.isSome_none, Bool.false_eq_true, if_false]
  rw [hic]
  simp only [St.flushThen, hflush, if_true]
  refine ⟨rfl, ?_, ?_⟩
  · simp [St.cache_addAppIcon, Cache.getAppIcon_add]
  · by_cases hpt : (p == t) = true
    · simp [St.cache_addAppIcon, Cache.getAppIcon_add, hpt]
    · simp [St.cache_addAppIcon, Cache.getAppIcon_add, hpt, hic]

/-- Witness for C7 in the `envC6` scenario: `"a.lnk"` falls back to its
target `"b.exe"`, and both keys end up with the target's descriptor. -/
theorem lnk_fallback_aliases_target_descriptor_witness :
    (envC6.pathExists "a.lnk" = true ∧ envC6.isDir "a.lnk" = false ∧
      (envC6.pathExtension "a.lnk").map strToLower = some "lnk" ∧
      st0.cache.getAppIcon "a.lnk" = none ∧
      (envC6.fileName "a.lnk").isNone = false ∧
      envC6.retrieveOk "a.lnk" = false ∧
      envC6.resolveLnk "a.lnk" = some "b.exe" ∧
      envC6.flushOk = true ∧
      extractAndSaveIconFromFile envC6 1 "b.exe" (lnkMidState "a.lnk" st0) =
        (.ok (), (extractAndSaveIconFromFile envC6 1 "b.exe" (lnkMidState "a.lnk" st0)).2) ∧
      (extractAndSaveIconFromFile envC6 1 "b.exe"
          (lnkMidState "a.lnk" st0)).2.cache.getAppIcon "b.exe" =
        some (Icon.static "u1.png")) ∧
    ((extractAndSaveIconFromFile envC6 2 "a.lnk" st0).1 = .ok () ∧
      (extractAndSaveIconFromFile envC6 2 "a.lnk" st0).2.cache.getAppIcon "a.lnk" =
        some (Icon.static "u1.png") ∧
      (extractAndSaveIconFromFile envC6 2 "a.lnk" st0).2.cache.getAppIcon "b.exe" =
        some (Icon.static "u1.png")) :=
  ⟨⟨by decide, by decide, by decide, by decide, by decide, by decide, by decide,
      by decide, by decide, by decide⟩,
    lnk_fallback_aliases_target_descriptor envC6 1 "a.lnk" "b.exe" st0
      (extractAndSaveIconFromFile envC6 1 "b.exe" (lnkMidState "a.lnk" st0)).2
      (Icon.static "u1.png") (by decide) (by decide) (by decide) (by decide)
      (by decide) (by decide) (by decide) (by decide) (by decide) (by decide)⟩

/-! ### C8: asset copy/save failures abort with the cache untouched -/

/-- If a run of `extract_and_save_icon_from_file` ends in an asset copy
or save failure, the cache equals what it was at entry: every cache
insertion in the source happens only after the corresponding asset
write succeeded. -/
theorem extract_file_io_error_keeps_cache (env : Env) :
    ∀ (fuel : Nat) (p : String) (s : St) (res : Except ExtractErr Unit) (s1 : St),
      extractAndSaveIconFromFile env fuel p s = (res, s1) →
      (res = .error .ioCopy ∨ res = .error .ioSave) →
      s1.cache = s.cache := by
  intro fuel
  induction fuel with
  | zero =>
      intro p s res s1 hE h
      simp only [extractAndSaveIconFromFile] at hE
      injection hE with h1 h2
      subst h1
      rcases h with h | h <;> simp at h
  | succ n ih =>
      intro p s res s1 hE h
      simp only [extractAndSaveIconFromFile] at hE
      split at hE
      · -- nonexistent path or directory
        injection hE with h1 h2
        subst h1
        rcases h with h | h <;> simp at h
      split at hE
      · -- no extension: no-op success
        injection hE with h1 h2
        subst h1
        rcases h with h | h <;> simp at h
      split at hE
      · -- cache hit
        injection hE with h1 h2
        subst h1
        rcases h with h | h <;> simp at h
      split at hE
      · -- no file name
        injection hE with h1 h2
        subst h1
        rcases h with h | h <;> simp at h
      split at hE
      · -- the `.url` placeholder branch
        split at hE
        · -- copy succeeded, then flush
          simp only [St.flushThen] at hE
          split at hE
          · injection hE with h1 h2
            subst h1
            rcases h with h | h <;> simp at h
          · injection hE with h1 h2
            subst h1
            rcases h with h | h <;> simp at h
        · -- copy failed: `ioCopy`, state only logged
          injection hE with h1 h2
          subst h2
          rfl
      · -- non-`.url`: direct retrieval attempt
        split at hE
        · -- retrieval succeeded
          split at hE
          · -- save succeeded, then flush
            simp only [St.flushThen] at hE
            split at hE
            · injection hE with h1 h2
              subst h1
              rcases h with h | h <;> simp at h
            · injection hE with h1 h2
              subst h1
              rcases h with h | h <;> simp at h
          · -- save failed: `ioSave`, state only logged
            injection hE with h1 h2
            subst h2
            rfl
        · -- retrieval failed
          split at hE
          · -- `.lnk` fallback
            split at hE
            · -- target resolution failed
              injection hE with h1 h2
              subst h1
              rcases h with h | h <;> simp at h
            · -- recursion on the target
              split at hE
              · -- recursion errored: propagate, cache by induction hypothesis
                next e s2 heq =>
                  injection hE with h1 h2
                  subst h1
                  subst h2
                  have hc := ih _ _ (.error e) s2 heq h
                  rw [hc]
                  rfl
              · -- recursion succeeded: alias or `ups`
                split at hE
                · injection hE with h1 h2
                  subst h1
                  rcases h with h | h <;> simp at h
                · simp only [St.flushThen] at hE
                  split at hE
                  · injection hE with h1 h2
                    subst h1
                    rcases h with h | h <;> simp at h
                  · injection hE with h1 h2
                    subst h1
                    rcases h with h | h <;> simp at h
          · -- no fallback: `extractionFailed`
            injection hE with h1 h2
            subst h1
            rcases h with h | h <;> simp at h

/-- The same for `extract_and_save_icon_umid`: an `ioCopy`/`ioSave`
outcome leaves the cache untouched (including when it is propagated out
of the delegated `.lnk` extraction of the `PropertyStore` arm). -/
theorem umid_io_error_keeps_cache (env : Env) (fuel : Nat)
    (aumid : AppUserModelId) (s : St) (res : Except ExtractErr Unit) (s1 : St)
    (hE : extractAndSaveIconUmid env fuel aumid s = (res, s1))
    (h : res = .error .ioCopy ∨ res = .error .ioSave) :
    s1.cache = s.cache := by
  cases aumid with
  | appx a =>
      simp only [extractAndSaveIconUmid, AppUserModelId.key] at hE
      split at hE
      · -- cache hit
        injection hE with h1 h2
        subst h1
        rcases h with h | h <;> simp at h
      split at hE
      · -- UWP lookup failed
        injection hE with h1 h2
        subst h1
        rcases h with h | h <;> simp at h
      split at hE
      · -- light copy succeeded
        split at hE
        · -- dark copy succeeded, then flush
          simp only [St.flushThen] at hE
          split at hE
          · injection hE with h1 h2
            subst h1
            rcases h with h | h <;> simp at h
          · injection hE with h1 h2
            subst h1
            rcases h with h | h <;> simp at h
        · -- dark copy failed: `ioCopy`
          injection hE with h1 h2
          subst h2
          rfl
      · -- light copy failed: `ioCopy`
        injection hE with h1 h2
        subst h2
        rfl
  | propertyStore a =>
      simp only [extractAndSaveIconUmid, AppUserModelId.key] at hE
      split at hE
      · -- cache hit
        injection hE with h1 h2
        subst h1
        rcases h with h | h <;> simp at h
      split at hE
      · -- no shortcut for the identity
        injection hE with h1 h2
        subst h1
        rcases h with h | h <;> simp at h
      split at hE
      · -- delegated extraction errored: propagate
        next e s2 heq =>
          injection hE with h1 h2
          subst h1
          subst h2
          have hc := extract_file_io_error_keeps_cache env fuel _ _ (.error e) s2 heq h
          rw [hc]
          rfl
      · -- delegated extraction succeeded: alias or `ups`
        split at hE
        · injection hE with h1 h2
          subst h1
          rcases h with h | h <;> simp at h
        · simp only [St.flushThen] at hE
          split at hE
          · injection hE with h1 h2
            subst h1
            rcases h with h | h <;> simp at h
          · injection hE with h1 h2
            subst h1
            rcases h with h | h <;> simp at h

/-- C8: whenever an extraction (either entry point) fails because an
asset file could not be copied or saved to the icon store, the error is
propagated and no cache entry has been inserted: the cache after the
failed call equals the cache before it. -/
theorem asset_io_failure_no_partial_cache_write (env : Env) (fuel : Nat)
    (p : String) (aumid : AppUserModelId) (s : St) :
    (((extractAndSaveIconFromFile env fuel p s).1 = .error .ioCopy ∨
      (extractAndSaveIconFromFile env fuel p s).1 = .error .ioSave) →
      (extractAndSaveIconFromFile env fuel p s).2.cache = s.cache) ∧
    (((extractAndSaveIconUmid env fuel aumid s).1 = .error .ioCopy ∨
      (extractAndSaveIconUmid env fuel aumid s).1 = .error .ioSave) →
      (extractAndSaveIconUmid env fuel aumid s).2.cache = s.cache) :=
  ⟨fun h => extract_file_io_error_keeps_cache env fuel p s _ _ rfl h,
   fun h => umid_io_error_keeps_cache env fuel aumid s _ _ rfl h⟩

/-- An environment in which every asset copy and save fails: `"a.exe"`
exists and its retrieval succeeds, and the identity `"app"` has UWP
theme icons, but nothing can be written to the icon store. -/
def envSaveFail : Env :=
  { pathExists := fun _ => true
    isDir := fun _ => false
    pathExtension := fun _ => some "exe"
    fileName := fun q => some q
    retrieveOk := fun _ => true
    saveOk := fun _ => false
    copyOk := fun _ => false
    resolveLnk := fun _ => none
    uwpIconPaths := fun _ => some ("light-src.png", "dark-src.png")
    shortcutForUmid := fun _ => none
    flushOk := true
    uuidName := fun n => "u" ++ Nat.repr n }

/-- Witness for C8: a failed save (`"a.exe"`) and a failed copy
(`Appx "app"`) both leave the empty cache empty. -/
theorem asset_io_failure_no_partial_cache_write_witness :
    (((extractAndSaveIconFromFile envSaveFail 1 "a.exe" st0).1 = .error .ioCopy ∨
        (extractAndSaveIconFromFile envSaveFail 1 "a.exe" st0).1 = .error .ioSave) ∧
      ((extractAndSaveIconUmid envSaveFail 1 (.appx "app") st0).1 = .error .ioCopy ∨
        (extractAndSaveIconUmid envSaveFail 1 (.appx "app") st0).1 = .error .ioSave)) ∧
    ((extractAndSaveIconFromFile envSaveFail 1 "a.exe" st0).2.cache = st0.cache ∧
      (extractAndSaveIconUmid envSaveFail 1 (.appx "app") st0).2.cache = st0.cache) :=
  ⟨⟨Or.inr (by decide), Or.inl (by decide)⟩,
    (asset_io_failure_no_partial_cache_write envSaveFail 1 "a.exe" (.appx "app") st0).1
      (Or.inr (by decide)),
    (asset_io_failure_no_partial_cache_write envSaveFail 1 "a.exe" (.appx "app") st0).2
      (Or.inl (by decide))⟩

end IconExtractor
